import Mathlib

/-
Shallow embedding of src/server/download_csv.py.

The script issues one HTTP GET (via the requests library, stream=True),
calls response.raise_for_status(), resolves an output path from its own
location, opens that path in truncating text mode with encoding='utf-8',
iterates response.iter_content(chunk_size=8192, decode_unicode=True)
writing each chunk and accumulating len(chunk.encode('utf-8')), prints a
summary and returns True; any requests.exceptions.RequestException or
other Exception is caught and turned into False.  The __main__ block maps
the boolean to exit code 0 or 1.

Library behaviour embedded from the requests/CPython sources:
  - Response.raise_for_status raises HTTPError exactly when
    400 <= status_code < 600 (4xx client error or 5xx server error);
    1xx/2xx/3xx statuses do not raise.
  - iter_content(decode_unicode=True) wraps the byte chunks in
    stream_decode_response_unicode: when Response.encoding is None the raw
    byte chunks are yielded unchanged (so f.write(chunk) on the text-mode
    file raises TypeError); otherwise an incremental decoder for that
    encoding with errors="replace" decodes the stream.  An incremental
    decoder over a chunking of the byte stream produces, concatenated, the
    same text as decoding the whole stream, so the model decodes the whole
    body at once and chunk boundaries are irrelevant to file content and
    to the accumulated total.
  - CPython's utf-8 codec is strict: overlong forms, surrogates, leads
    F5..FF and out-of-range continuations are ill-formed and, under
    errors="replace", each maximal ill-formed subpart becomes U+FFFD.
  - CPython's latin-1 codec maps byte b to code point b, never failing.
  - open(path, 'w', encoding='utf-8') truncates the file on a successful
    open; a failing open (permissions, missing directory) raises OSError
    before any truncation.  On POSIX, text mode writes '\n' unchanged.

Bytes and Unicode code points are modelled as Nat.
-/

/-- Continuation byte test: 0x80 <= b < 0xC0. -/
def isCont (b : Nat) : Bool := 0x80 ≤ b && b < 0xC0

/-- CPython latin-1 decoding: byte b becomes code point b.  Never fails. -/
def latin1Decode (bs : List Nat) : List Nat := bs

/-- CPython utf-8 decoding with errors="replace": well-formed sequences
decode to their scalar value, each maximal ill-formed subpart (stray
continuation byte, overlong lead C0/C1, lead F5..FF, truncated or
out-of-range sequence, surrogate encoding) is replaced by U+FFFD. -/
def utf8DecodeRepl : List Nat → List Nat
  | [] => []
  | b :: bs =>
    if b < 0x80 then b :: utf8DecodeRepl bs
    else if b < 0xC2 then 0xFFFD :: utf8DecodeRepl bs
    else if b < 0xE0 then
      match bs with
      | [] => [0xFFFD]
      | b1 :: bs1 =>
        if isCont b1 then ((b - 0xC0) * 0x40 + (b1 - 0x80)) :: utf8DecodeRepl bs1
        else 0xFFFD :: utf8DecodeRepl (b1 :: bs1)
    else if b < 0xF0 then
      match bs with
      | [] => [0xFFFD]
      | b1 :: bs1 =>
        if isCont b1 && (decide (0xA0 ≤ b1) || decide (b ≠ 0xE0))
            && (decide (b1 < 0xA0) || decide (b ≠ 0xED)) then
          match bs1 with
          | [] => [0xFFFD]
          | b2 :: bs2 =>
            if isCont b2 then
              ((b - 0xE0) * 0x1000 + (b1 - 0x80) * 0x40 + (b2 - 0x80)) :: utf8DecodeRepl bs2
            else 0xFFFD :: utf8DecodeRepl (b2 :: bs2)
        else 0xFFFD :: utf8DecodeRepl (b1 :: bs1)
    else if b < 0xF5 then
      match bs with
      | [] => [0xFFFD]
      | b1 :: bs1 =>
        if isCont b1 && (decide (0x90 ≤ b1) || decide (b ≠ 0xF0))
            && (decide (b1 < 0x90) || decide (b ≠ 0xF4)) then
          match bs1 with
          | [] => [0xFFFD]
          | b2 :: bs2 =>
            if isCont b2 then
              match bs2 with
              | [] => [0xFFFD]
              | b3 :: bs3 =>
                if isCont b3 then
                  ((b - 0xF0) * 0x40000 + (b1 - 0x80) * 0x1000
                     + (b2 - 0x80) * 0x40 + (b3 - 0x80)) :: utf8DecodeRepl bs3
                else 0xFFFD :: utf8DecodeRepl (b3 :: bs3)
            else 0xFFFD :: utf8DecodeRepl (b2 :: bs2)
        else 0xFFFD :: utf8DecodeRepl (b1 :: bs1)
    else 0xFFFD :: utf8DecodeRepl bs

/-- CPython utf-8 encoding of one code point (str.encode on scalar values). -/
def utf8EncodeChar (c : Nat) : List Nat :=
  if c < 0x80 then [c]
  else if c < 0x800 then [0xC0 + c / 0x40, 0x80 + c % 0x40]
  else if c < 0x10000 then [0xE0 + c / 0x1000, 0x80 + c / 0x40 % 0x40, 0x80 + c % 0x40]
  else [0xF0 + c / 0x40000, 0x80 + c / 0x1000 % 0x40, 0x80 + c / 0x40 % 0x40, 0x80 + c % 0x40]

/-- str.encode('utf-8') over a whole text. -/
def utf8Encode (cs : List Nat) : List Nat := (cs.map utf8EncodeChar).flatten

/-- A Unicode scalar value: in range and not a surrogate. -/
def IsScalar (c : Nat) : Prop := c < 0x110000 ∧ (c < 0xD800 ∨ 0xE000 ≤ c)

instance (c : Nat) : Decidable (IsScalar c) := by unfold IsScalar; infer_instance

/-- A byte string is valid UTF-8 iff it is the UTF-8 encoding of some
sequence of Unicode scalar values. -/
def Utf8Valid (bs : List Nat) : Prop :=
  ∃ cs, (∀ c ∈ cs, IsScalar c) ∧ utf8Encode cs = bs

/-- requests.Response.encoding as it matters to the script: a concrete
charset taken from the Content-Type header (text/csv defaults to
ISO-8859-1, an explicit charset=utf-8 gives utf-8), or None when the
header carries no text type and no charset. -/
inductive Encoding where
  | latin1
  | utf8
  | none
  deriving DecidableEq, Repr

/-- The HTTP response the server answers with: final status code, raw body
bytes on the wire, and the declared encoding requests derives from the
headers. -/
structure HttpResponse where
  status : Nat
  body : List Nat
  encoding : Encoding
  deriving DecidableEq, Repr

/-- Decoding of a whole body with the declared encoding, errors="replace"
(stream_decode_response_unicode's decoder); only called when the encoding
is not None. -/
def decodeBody (enc : Encoding) (bs : List Nat) : List Nat :=
  match enc with
  | Encoding.latin1 => latin1Decode bs
  | Encoding.utf8 => utf8DecodeRepl bs
  | Encoding.none => []

/-- What iter_content(decode_unicode=True) decodes and the text-mode
utf-8 file write re-encodes: the bytes that actually reach the file on a
successful run.  When the encoding is None no decoding happens, f.write
raises TypeError on the first (bytes) chunk, and nothing is ever written
after the open truncated the file, so the file bytes are []. -/
def reencoded (r : HttpResponse) : List Nat :=
  match r.encoding with
  | Encoding.latin1 => utf8Encode (latin1Decode r.body)
  | Encoding.utf8 => utf8Encode (utf8DecodeRepl r.body)
  | Encoding.none => []

/-- requests.Response.text: the body decoded with the declared encoding,
errors='replace'.  When encoding is None requests falls back to a detected
apparent encoding; that detector is modelled as utf-8 with replacement
(the diagnostics theorems never depend on this case). -/
def respText (r : HttpResponse) : List Nat :=
  match r.encoding with
  | Encoding.latin1 => latin1Decode r.body
  | Encoding.utf8 => utf8DecodeRepl r.body
  | Encoding.none => utf8DecodeRepl r.body

/-- A Python path value: absolute, or relative to the current working
directory.  Paths are lists of components. -/
inductive PyPath where
  | abs (comps : List String)
  | rel (comps : List String)
  deriving DecidableEq, Repr

/-- os.path.abspath: an absolute path is returned as is, a relative path
is joined onto the current working directory. -/
def abspath (cwd : List String) : PyPath → List String
  | PyPath.abs cs => cs
  | PyPath.rel cs => cwd ++ cs

/-- os.path.dirname on a component list: drop the last component. -/
def dirname (p : List String) : List String := p.dropLast

/-- os.path.join of a directory and a bare filename. -/
def joinFile (p : List String) (f : String) : List String := p ++ [f]

/-- Lines 29-31 of download_csv.py:
script_dir = os.path.dirname(os.path.abspath(__file__));
project_root = os.path.dirname(script_dir);
csv_path = os.path.join(project_root, "pets.csv"). -/
def csvPathOf (cwd : List String) (file : PyPath) : List String :=
  joinFile (dirname (dirname (abspath cwd file))) "pets.csv"

/-- The filesystem: a partial map from paths to file contents (bytes). -/
def FS : Type := List String → Option (List Nat)

/-- Writing a whole file at a path. -/
def FS.set (fs : FS) (p : List String) (v : List Nat) : FS :=
  fun q => if q = p then some v else fs q

/-- The Python exceptions the run can raise. -/
inductive PyError where
  /-- requests.exceptions.HTTPError from raise_for_status; e.response is
  the response object. -/
  | httpError (resp : HttpResponse)
  /-- a transport-level requests.exceptions.RequestException
  (ConnectionError, Timeout, ...); e.response is None. -/
  | connError
  /-- OSError from open() (permissions, missing directory). -/
  | osError
  /-- TypeError from f.write(chunk) when the chunk is bytes (encoding None). -/
  | typeError
  deriving DecidableEq, Repr

/-- Everything outside the function that a run depends on: where the
script sits, whether the network call yields a response (none is a
transport error), and whether the output path can be opened for writing. -/
structure RunInput where
  cwd : List String
  file : PyPath
  net : Option HttpResponse
  writable : Bool

/-- The body of the try block (lines 18-48): the network call,
raise_for_status, the open and the write loop.  Returns the filesystem
after the attempt together with either the accumulated total_size or the
exception raised.  On an HTTPError or a failed open nothing was written;
on a TypeError the open had already truncated the file. -/
def bodyRun (inp : RunInput) (fs : FS) : FS × Except PyError Nat :=
  match inp.net with
  | Option.none => (fs, Except.error PyError.connError)
  | Option.some r =>
    if 400 ≤ r.status ∧ r.status < 600 then
      (fs, Except.error (PyError.httpError r))
    else if inp.writable = false then
      (fs, Except.error PyError.osError)
    else
      match r.encoding with
      | Encoding.none =>
        (fs.set (csvPathOf inp.cwd inp.file) [],
         if r.body = [] then Except.ok 0 else Except.error PyError.typeError)
      | _ =>
        (fs.set (csvPathOf inp.cwd inp.file) (reencoded r),
         Except.ok (reencoded r).length)

/-- Python's round-half-even rendering of (100 * b) / 1048576, i.e.
file_size_mb = total_size / (1024 * 1024) printed with format .2f, as a
number of hundredths.  For every b below 2^53 the float b / 1048576 is
exact (division by a power of two), so the printed value is exactly this
rational rounding; larger totals are out of reach for this script. -/
def reportedHundredths (b : Nat) : Nat :=
  let num := 100 * b
  let den := 1048576
  let q := num / den
  let r := num % den
  if 2 * r < den then q
  else if den < 2 * r then q + 1
  else if q % 2 = 0 then q else q + 1

/-- One printed line of the script, structurally. -/
inductive OutLine where
  /-- "Downloading latest CSV from API..." -/
  | downloading
  /-- the success banner line -/
  | okBanner
  /-- "  File: ..." with the output path -/
  | okFile (path : List String)
  /-- "  Size: ... MB" with the size in hundredths of a mebibyte -/
  | okSize (hundredths : Nat)
  /-- the error line of the RequestException handler, carrying the error -/
  | errRequest (e : PyError)
  /-- "  Status code: ..." -/
  | errStatus (code : Nat)
  /-- "  Response: ..." with e.response.text truncated to 200 characters -/
  | errExcerpt (text : List Nat)
  /-- the error line of the generic Exception handler, carrying the error -/
  | errUnexpected (e : PyError)
  deriving DecidableEq, Repr

/-- The observable outcome of one run of download_csv: the boolean the
function returns, the filesystem afterwards, and the lines printed. -/
structure RunResult where
  ok : Bool
  fs : FS
  out : List OutLine

/-- download_csv (lines 15-58): run the try-block body; on success print
the banner, the file path and the size and return True; on a
RequestException print the error and, when the exception carries a
response (HTTPError does, transport errors do not), the status code and
the first 200 characters of the response text, returning False; on any
other exception print it and return False. -/
def download_csv (inp : RunInput) (fs : FS) : RunResult :=
  let path := csvPathOf inp.cwd inp.file
  let step := bodyRun inp fs
  match step.2 with
  | Except.ok n =>
    { ok := true
      fs := step.1
      out := [OutLine.downloading, OutLine.okBanner, OutLine.okFile path,
              OutLine.okSize (reportedHundredths n)] }
  | Except.error (PyError.httpError r) =>
    { ok := false
      fs := step.1
      out := [OutLine.downloading, OutLine.errRequest (PyError.httpError r),
              OutLine.errStatus r.status, OutLine.errExcerpt ((respText r).take 200)] }
  | Except.error PyError.connError =>
    { ok := false
      fs := step.1
      out := [OutLine.downloading, OutLine.errRequest PyError.connError] }
  | Except.error e =>
    { ok := false
      fs := step.1
      out := [OutLine.downloading, OutLine.errUnexpected e] }

/-- The __main__ block (lines 60-62): sys.exit(0 if success else 1). -/
def mainExit (inp : RunInput) (fs : FS) : Nat :=
  if (download_csv inp fs).ok then 0 else 1

/-! Concrete run inputs used by the closed counterexamples and witnesses.
The script is placed at /app/server/download_csv.py, so the output path
resolves to /app/pets.csv. -/

/-- The script location used in concrete runs. -/
def cFile : PyPath := PyPath.abs ["app", "server", "download_csv.py"]

/-- The output path the script resolves from cFile. -/
def cPath : List String := ["app", "pets.csv"]

/-- An empty filesystem. -/
def fs0 : FS := fun _ => Option.none

/-- A filesystem with a pre-existing one-byte output file. -/
def fs1 : FS := FS.set fs0 cPath [65]

/-- A run input whose response has the given body and status, declared
encoding ISO-8859-1 (requests' default for text/csv), script at cFile,
writable output. -/
def cInpLatin (body : List Nat) (status : Nat) : RunInput :=
  { cwd := []
    file := cFile
    net := Option.some { status := status, body := body, encoding := Encoding.latin1 }
    writable := true }



/-! Helper lemmas shared by the claim theorems. -/

set_option maxHeartbeats 1000000 in
set_option maxRecDepth 4000 in
/-- Every code point produced by the utf-8 replacing decoder is a Unicode
scalar value: the decoder range-checks every sequence (rejecting
surrogates and out-of-range leads) and otherwise emits U+FFFD. -/
theorem utf8DecodeRepl_scalar (bs : List Nat) : ∀ c ∈ utf8DecodeRepl bs, IsScalar c := by
  induction bs using utf8DecodeRepl.induct
  all_goals intro c hc
  all_goals rw [utf8DecodeRepl.eq_def] at hc
  all_goals dsimp only at hc
  all_goals repeat split at hc
  all_goals simp only [List.mem_cons, List.mem_singleton, List.not_mem_nil, or_false] at hc
  all_goals simp only [isCont, Bool.and_eq_true, Bool.or_eq_true, decide_eq_true_eq,
    Bool.not_eq_true, Bool.and_eq_false_iff, Bool.or_eq_false_iff, decide_eq_false_iff_not,
    not_lt, not_le] at *
  all_goals try rcases hc with rfl | hc
  all_goals first
    | solve_by_elim
    | (constructor <;> omega)

/-- The rendered hundredths value is the nearest (ties to even) hundredth
of b / 1048576: it differs from 100 * b / 1048576 by at most one half. -/
theorem reportedHundredths_close (b : Nat) :
    200 * b ≤ 2097152 * reportedHundredths b + 1048576 ∧
    2097152 * reportedHundredths b ≤ 200 * b + 1048576 := by
  simp only [reportedHundredths]
  repeat' split
  all_goals omega

/-- The filesystem download_csv leaves behind is the one the try-block
body leaves behind, whatever the outcome. -/
theorem download_csv_fs_eq (inp : RunInput) (fs : FS) :
    (download_csv inp fs).fs = (bodyRun inp fs).1 := by
  simp only [download_csv]
  split <;> rfl

/-- download_csv returns True exactly when the try-block body completed
without an exception. -/
theorem download_csv_ok_iff (inp : RunInput) (fs : FS) :
    (download_csv inp fs).ok = true ↔ ∃ n, (bodyRun inp fs).2 = Except.ok n := by
  cases h : (bodyRun inp fs).2 with
  | ok n => simp [download_csv, h]
  | error e => cases e <;> simp [download_csv, h]

/-- On a completed try-block body the response was present and the output
file now holds the decoded-and-re-encoded body, whose length is the
accumulated total. -/
theorem bodyRun_ok_write (inp : RunInput) (fs : FS) (n : Nat)
    (h : (bodyRun inp fs).2 = Except.ok n) :
    ∃ r, inp.net = Option.some r ∧
      (bodyRun inp fs).1 = fs.set (csvPathOf inp.cwd inp.file) (reencoded r) ∧
      n = (reencoded r).length := by
  obtain ⟨cwd, file, net, wr⟩ := inp
  cases net with
  | none => simp [bodyRun] at h
  | some r =>
    refine ⟨r, rfl, ?_⟩
    by_cases hst : 400 ≤ r.status ∧ r.status < 600
    · simp [bodyRun, hst] at h
    · by_cases hw : wr = false
      · simp [bodyRun, hst, hw] at h
      · cases henc : r.encoding with
        | none =>
          by_cases hb : r.body = []
          · simp [bodyRun, hst, hw, henc, hb, reencoded] at h ⊢
            omega
          · simp [bodyRun, hst, hw, henc, hb] at h
        | latin1 =>
          simp [bodyRun, hst, hw, henc, reencoded] at h ⊢
          exact h.symm
        | utf8 =>
          simp [bodyRun, hst, hw, henc, reencoded] at h ⊢
          exact h.symm

/-! Claim theorems. -/

/-- C1 counterexample: a successful response of one byte 0xE9 under the
text/csv default encoding ISO-8859-1 yields a two-byte file 0xC3 0xA9 (the
utf-8 re-encoding), so the file is neither N bytes nor byte-for-byte equal
to the body. -/
theorem download_csv_not_byte_identical :
    (download_csv (cInpLatin [233] 200) fs0).ok = true ∧
    (download_csv (cInpLatin [233] 200) fs0).fs cPath = Option.some [195, 169] ∧
    (download_csv (cInpLatin [233] 200) fs0).fs cPath ≠ Option.some [233] ∧
    ((download_csv (cInpLatin [233] 200) fs0).fs cPath).map List.length ≠
      Option.some 1 := by decide

/-- C1 (amended): for every successful run whose response body survives
the decode-then-re-encode pipeline unchanged (pure ASCII bodies in
particular), the output file exists, equals the body byte-for-byte and is
exactly N bytes for a body of N bytes. -/
theorem download_csv_round_trip (inp : RunInput) (fs : FS) (r : HttpResponse)
    (hnet : inp.net = Option.some r)
    (hok : (download_csv inp fs).ok = true)
    (hrt : reencoded r = r.body) :
    (download_csv inp fs).fs (csvPathOf inp.cwd inp.file) = Option.some r.body ∧
    ((download_csv inp fs).fs (csvPathOf inp.cwd inp.file)).map List.length =
      Option.some r.body.length := by
  obtain ⟨n, hn⟩ := (download_csv_ok_iff inp fs).1 hok
  obtain ⟨r', hnet', hfs, hlen⟩ := bodyRun_ok_write inp fs n hn
  rw [hnet] at hnet'
  injection hnet' with hr
  subst hr
  rw [download_csv_fs_eq, hfs]
  constructor
  · simp [FS.set, hrt]
  · simp [FS.set, hrt]

/-- C1 witness: the two-byte ASCII body 0x68 0x69 round-trips exactly. -/
theorem download_csv_round_trip_witness :
    (download_csv (cInpLatin [104, 105] 200) fs0).fs
        (csvPathOf (cInpLatin [104, 105] 200).cwd (cInpLatin [104, 105] 200).file) =
      Option.some [104, 105] ∧
    ((download_csv (cInpLatin [104, 105] 200) fs0).fs
        (csvPathOf (cInpLatin [104, 105] 200).cwd (cInpLatin [104, 105] 200).file)).map
        List.length =
      Option.some 2 :=
  download_csv_round_trip (cInpLatin [104, 105] 200) fs0
    { status := 200, body := [104, 105], encoding := Encoding.latin1 } rfl
    (by decide) (by decide)

/-- C2 counterexample: a 304 response (non-2xx) does not raise in
raise_for_status, so the run reports success and truncates the
pre-existing output file to the (empty) re-encoded body. -/
theorem download_csv_status304_success :
    (download_csv (cInpLatin [] 304) fs1).ok = true ∧
    (download_csv (cInpLatin [] 304) fs1).fs cPath ≠ fs1 cPath := by decide

/-- C2 (amended): for every run in which the server answers with a 4xx or
5xx status, download_csv reports failure and the whole filesystem — in
particular any pre-existing output file — is left unchanged, because
raise_for_status raises before the output file is opened for writing. -/
theorem download_csv_http_error_leaves_fs (inp : RunInput) (fs : FS) (r : HttpResponse)
    (hnet : inp.net = Option.some r) (h4 : 400 ≤ r.status) (h6 : r.status < 600) :
    (download_csv inp fs).ok = false ∧ (download_csv inp fs).fs = fs := by
  obtain ⟨cwd, file, net, wr⟩ := inp
  simp only at hnet
  subst hnet
  constructor
  · simp [download_csv, bodyRun, h4, h6]
  · simp [download_csv, bodyRun, h4, h6]

/-- C2 witness: a 404 run over a pre-existing file fails and leaves the
filesystem untouched. -/
theorem download_csv_http_error_leaves_fs_witness :
    (download_csv (cInpLatin [72] 404) fs1).ok = false ∧
    (download_csv (cInpLatin [72] 404) fs1).fs = fs1 :=
  download_csv_http_error_leaves_fs (cInpLatin [72] 404) fs1
    { status := 404, body := [72], encoding := Encoding.latin1 } rfl
    (by decide) (by decide)

/-- C3 counterexample: a 300 response is non-2xx yet the run succeeds and
prints the success lines, with no status-code or excerpt diagnostics. -/
theorem download_csv_status300_no_error :
    (download_csv (cInpLatin [] 300) fs0).ok = true ∧
    (download_csv (cInpLatin [] 300) fs0).out =
      [OutLine.downloading, OutLine.okBanner, OutLine.okFile cPath, OutLine.okSize 0] := by
  decide

/-- C3 (amended): every 4xx or 5xx response is treated as an error, and
the failure diagnostics include the numeric status code and an excerpt of
the response text truncated to at most 200 characters. -/
theorem download_csv_http_error_diagnostics (inp : RunInput) (fs : FS) (r : HttpResponse)
    (hnet : inp.net = Option.some r) (h4 : 400 ≤ r.status) (h6 : r.status < 600) :
    (download_csv inp fs).ok = false ∧
    OutLine.errStatus r.status ∈ (download_csv inp fs).out ∧
    OutLine.errExcerpt ((respText r).take 200) ∈ (download_csv inp fs).out ∧
    ((respText r).take 200).length ≤ 200 := by
  obtain ⟨cwd, file, net, wr⟩ := inp
  simp only at hnet
  subst hnet
  refine ⟨?_, ?_, ?_, ?_⟩
  · simp [download_csv, bodyRun, h4, h6]
  · simp [download_csv, bodyRun, h4, h6]
  · simp [download_csv, bodyRun, h4, h6]
  · rw [List.length_take]
    exact min_le_left _ _

/-- C3 witness: a 404 with a 250-byte body yields failure diagnostics with
the status and a 200-character excerpt. -/
theorem download_csv_http_error_diagnostics_witness :
    (download_csv (cInpLatin (List.replicate 250 97) 404) fs0).ok = false ∧
    OutLine.errStatus 404 ∈ (download_csv (cInpLatin (List.replicate 250 97) 404) fs0).out ∧
    OutLine.errExcerpt
        ((respText { status := 404, body := List.replicate 250 97,
                     encoding := Encoding.latin1 }).take 200) ∈
      (download_csv (cInpLatin (List.replicate 250 97) 404) fs0).out ∧
    ((respText { status := 404, body := List.replicate 250 97,
                 encoding := Encoding.latin1 }).take 200).length ≤ 200 :=
  download_csv_http_error_diagnostics (cInpLatin (List.replicate 250 97) 404) fs0
    { status := 404, body := List.replicate 250 97, encoding := Encoding.latin1 } rfl
    (by decide) (by decide)

/-- C4: the process exit code is 0 exactly when download_csv returns True
and 1 exactly when it returns False, and no other exit code occurs. -/
theorem mainExit_zero_one (inp : RunInput) (fs : FS) :
    (mainExit inp fs = 0 ↔ (download_csv inp fs).ok = true) ∧
    (mainExit inp fs = 1 ↔ (download_csv inp fs).ok = false) ∧
    (mainExit inp fs = 0 ∨ mainExit inp fs = 1) := by
  unfold mainExit
  cases h : (download_csv inp fs).ok <;> simp [h]

/-- C5: download_csv is total over its error model: the run either
completes and returns True, or the raised error (network, HTTP-status,
filesystem or other) is caught, printed as one of the two handler
messages, and False is returned — no exception escapes to the caller. -/
theorem download_csv_errors_all_caught (inp : RunInput) (fs : FS) :
    ((download_csv inp fs).ok = true ∧ ∃ n, (bodyRun inp fs).2 = Except.ok n) ∨
    ((download_csv inp fs).ok = false ∧ ∃ e, (bodyRun inp fs).2 = Except.error e ∧
      (OutLine.errRequest e ∈ (download_csv inp fs).out ∨
       OutLine.errUnexpected e ∈ (download_csv inp fs).out)) := by
  cases h : (bodyRun inp fs).2 with
  | ok n =>
    left
    exact ⟨by simp [download_csv, h], n, rfl⟩
  | error e =>
    right
    refine ⟨?_, e, rfl, ?_⟩
    · cases e <;> simp [download_csv, h]
    · cases e <;> simp [download_csv, h]

/-- C6 counterexample: two successful runs that write 1 and 2 bytes
return the same value (True), so the value download_csv hands its caller
cannot carry the byte count; it is merely a success flag. -/
theorem download_csv_return_flag_only :
    (bodyRun (cInpLatin [97] 200) fs0).2 = Except.ok 1 ∧
    (bodyRun (cInpLatin [97, 98] 200) fs0).2 = Except.ok 2 ∧
    (download_csv (cInpLatin [97] 200) fs0).ok =
      (download_csv (cInpLatin [97, 98] 200) fs0).ok :=
  ⟨rfl, rfl, rfl⟩

/-- C6 (amended): download_csv returns only a boolean success flag — True
exactly when the body completed — and the number of bytes written is not
part of the returned value but is surfaced in the printed size line. -/
theorem download_csv_boolean_result (inp : RunInput) (fs : FS) :
    ((download_csv inp fs).ok = true ↔ ∃ n, (bodyRun inp fs).2 = Except.ok n) ∧
    (∀ n, (bodyRun inp fs).2 = Except.ok n →
      OutLine.okSize (reportedHundredths n) ∈ (download_csv inp fs).out) := by
  refine ⟨download_csv_ok_iff inp fs, ?_⟩
  intro n hn
  simp [download_csv, hn]

/-- C7 counterexample: after a successful run with body "a" followed by a
successful run with body 0xE9 (ISO-8859-1), the file holds the utf-8
re-encoding 0xC3 0xA9, not the second body byte-for-byte. -/
theorem download_csv_second_run_reencodes :
    (download_csv (cInpLatin [97] 200) fs0).ok = true ∧
    (download_csv (cInpLatin [233] 200) (download_csv (cInpLatin [97] 200) fs0).fs).ok = true ∧
    (download_csv (cInpLatin [233] 200)
          (download_csv (cInpLatin [97] 200) fs0).fs).fs cPath ≠
      Option.some [233] := by decide

/-- C7 (amended): after two successive successful runs the output file
holds exactly the decoded-and-re-encoded second body; nothing of the first
body or of any prior file contents survives — the write truncates and
replaces, it never appends. -/
theorem download_csv_overwrite_last_wins (inpA inpB : RunInput) (fs : FS) (rB : HttpResponse)
    (hnet : inpB.net = Option.some rB)
    (h1 : (download_csv inpA fs).ok = true)
    (h2 : (download_csv inpB (download_csv inpA fs).fs).ok = true) :
    (download_csv inpB (download_csv inpA fs).fs).fs (csvPathOf inpB.cwd inpB.file) =
      Option.some (reencoded rB) := by
  obtain ⟨n, hn⟩ := (download_csv_ok_iff inpB (download_csv inpA fs).fs).1 h2
  obtain ⟨r', hnet', hfs, -⟩ := bodyRun_ok_write inpB (download_csv inpA fs).fs n hn
  rw [hnet] at hnet'
  injection hnet' with hr
  subst hr
  rw [download_csv_fs_eq, hfs]
  simp [FS.set]

/-- C7 witness: run "a" then run "bc"; the file afterwards is exactly
"bc". -/
theorem download_csv_overwrite_last_wins_witness :
    (download_csv (cInpLatin [98, 99] 200)
        (download_csv (cInpLatin [97] 200) fs0).fs).fs
        (csvPathOf (cInpLatin [98, 99] 200).cwd (cInpLatin [98, 99] 200).file) =
      Option.some (reencoded { status := 200, body := [98, 99],
                               encoding := Encoding.latin1 }) :=
  download_csv_overwrite_last_wins (cInpLatin [97] 200) (cInpLatin [98, 99] 200) fs0
    { status := 200, body := [98, 99], encoding := Encoding.latin1 } rfl
    (by decide) (by decide)

/-- C8: the output path depends only on where the script itself resides:
any working directory and any absolute or relative spelling of __file__
that resolve to the same script location give the same output path, namely
the grandparent directory of the script joined with the literal filename
pets.csv. -/
theorem csvPathOf_deterministic (cwd1 cwd2 : List String) (f1 f2 : PyPath)
    (P : List String) (h1 : abspath cwd1 f1 = P) (h2 : abspath cwd2 f2 = P) :
    csvPathOf cwd1 f1 = csvPathOf cwd2 f2 ∧
    csvPathOf cwd1 f1 = dirname (dirname P) ++ ["pets.csv"] ∧
    (csvPathOf cwd1 f1).getLast? = Option.some "pets.csv" := by
  unfold csvPathOf joinFile
  rw [h1, h2]
  refine ⟨rfl, rfl, ?_⟩
  simp

/-- C8 witness: running from /app with a relative __file__ and from /x
with the absolute __file__ both resolve the output to /app/pets.csv. -/
theorem csvPathOf_deterministic_witness :
    csvPathOf ["app"] (PyPath.rel ["server", "download_csv.py"]) = csvPathOf ["x"] cFile ∧
    csvPathOf ["app"] (PyPath.rel ["server", "download_csv.py"]) =
      dirname (dirname ["app", "server", "download_csv.py"]) ++ ["pets.csv"] ∧
    (csvPathOf ["app"] (PyPath.rel ["server", "download_csv.py"])).getLast? =
      Option.some "pets.csv" :=
  csvPathOf_deterministic ["app"] ["x"] (PyPath.rel ["server", "download_csv.py"]) cFile
    ["app", "server", "download_csv.py"] rfl rfl

/-- C9: a successful run that accumulated b bytes prints the file path and
a size equal to b / 1048576 rendered to two decimal places: the printed
hundredths value h satisfies the half-unit bounds
200 * b <= 2 * 1048576 * h + 1048576 and 2 * 1048576 * h <= 200 * b + 1048576,
i.e. it is within half a hundredth of the exact mebibyte count. -/
theorem download_csv_success_reports_size (inp : RunInput) (fs : FS) (b : Nat)
    (h : (bodyRun inp fs).2 = Except.ok b) :
    OutLine.okSize (reportedHundredths b) ∈ (download_csv inp fs).out ∧
    OutLine.okFile (csvPathOf inp.cwd inp.file) ∈ (download_csv inp fs).out ∧
    200 * b ≤ 2097152 * reportedHundredths b + 1048576 ∧
    2097152 * reportedHundredths b ≤ 200 * b + 1048576 := by
  refine ⟨?_, ?_, (reportedHundredths_close b).1, (reportedHundredths_close b).2⟩
  · simp [download_csv, h]
  · simp [download_csv, h]

/-- C9 witness: a one-byte download prints the path and size 0.00 MB. -/
theorem download_csv_success_reports_size_witness :
    OutLine.okSize (reportedHundredths 1) ∈ (download_csv (cInpLatin [97] 200) fs0).out ∧
    OutLine.okFile (csvPathOf (cInpLatin [97] 200).cwd (cInpLatin [97] 200).file) ∈
      (download_csv (cInpLatin [97] 200) fs0).out ∧
    200 * 1 ≤ 2097152 * reportedHundredths 1 + 1048576 ∧
    2097152 * reportedHundredths 1 ≤ 200 * 1 + 1048576 :=
  download_csv_success_reports_size (cInpLatin [97] 200) fs0 1 rfl

/-- C10: whatever encoding the wire used, a successful run leaves a file
whose bytes are the utf-8 encoding of a sequence of Unicode scalar values
— hence valid UTF-8 — and the accumulated total counts exactly those
re-encoded bytes. -/
theorem download_csv_writes_valid_utf8 (inp : RunInput) (fs : FS)
    (hbytes : ∀ r, inp.net = Option.some r → ∀ b ∈ r.body, b < 256)
    (hok : (download_csv inp fs).ok = true) :
    ∃ text, (∀ c ∈ text, IsScalar c) ∧
      (download_csv inp fs).fs (csvPathOf inp.cwd inp.file) =
        Option.some (utf8Encode text) ∧
      (bodyRun inp fs).2 = Except.ok (utf8Encode text).length ∧
      Utf8Valid (utf8Encode text) := by
  obtain ⟨n, hn⟩ := (download_csv_ok_iff inp fs).1 hok
  obtain ⟨r, hnet, hfs, hlen⟩ := bodyRun_ok_write inp fs n hn
  have hfile : (download_csv inp fs).fs (csvPathOf inp.cwd inp.file) =
      Option.some (reencoded r) := by
    rw [download_csv_fs_eq, hfs]
    simp [FS.set]
  cases henc : r.encoding with
  | latin1 =>
    refine ⟨latin1Decode r.body, ?_, ?_, ?_, ?_⟩
    · intro c hc
      have : c < 256 := hbytes r hnet c hc
      exact ⟨by omega, Or.inl (by omega)⟩
    · rw [hfile]; simp [reencoded, henc]
    · rw [hn, hlen]; simp [reencoded, henc]
    · exact ⟨latin1Decode r.body, fun c hc =>
        ⟨by have := hbytes r hnet c hc; omega,
         Or.inl (by have := hbytes r hnet c hc; omega)⟩, rfl⟩
  | utf8 =>
    refine ⟨utf8DecodeRepl r.body, utf8DecodeRepl_scalar r.body, ?_, ?_, ?_⟩
    · rw [hfile]; simp [reencoded, henc]
    · rw [hn, hlen]; simp [reencoded, henc]
    · exact ⟨utf8DecodeRepl r.body, utf8DecodeRepl_scalar r.body, rfl⟩
  | none =>
    refine ⟨[], by simp, ?_, ?_, ?_⟩
    · rw [hfile]; simp [reencoded, henc, utf8Encode]
    · rw [hn, hlen]; simp [reencoded, henc, utf8Encode]
    · exact ⟨[], by simp, rfl⟩

/-- C10 witness: a one-byte ASCII body under ISO-8859-1 leaves a valid
UTF-8 file whose length is the accumulated total. -/
theorem download_csv_writes_valid_utf8_witness :
    ∃ text, (∀ c ∈ text, IsScalar c) ∧
      (download_csv (cInpLatin [104] 200) fs0).fs
          (csvPathOf (cInpLatin [104] 200).cwd (cInpLatin [104] 200).file) =
        Option.some (utf8Encode text) ∧
      (bodyRun (cInpLatin [104] 200) fs0).2 = Except.ok (utf8Encode text).length ∧
      Utf8Valid (utf8Encode text) :=
  download_csv_writes_valid_utf8 (cInpLatin [104] 200) fs0
    (by intro r hr; injection hr with h; rw [← h]; decide) (by decide)
